import Mathlib

/-!
Verification of the AWA (Agentic Workflow Architecture) Python SDK workflow
runtime: a shallow embedding in Lean 4 of the modules under
`sdk/python/awa/` (`runtime/token.py`, `runtime/workflow_engine.py`,
`runtime/context_manager.py`, `runtime/decision_evaluator.py`,
`runtime/human_task_queue.py`, `runtime/actors/*.py`, `validator/__init__.py`,
`types/__init__.py`), together with theorems settling the frozen claims about
the natural-language specification of this runtime.

Modelling conventions:
- Python dynamic values are the inductive `Value` (none / bool / int / string);
  the runtime only ever stores and compares these shapes on the paths the
  claims touch.  Python `dict[str, Any]` is an insertion-ordered association
  list `List (String × Value)` with Python assignment semantics (`dictSet`
  replaces in place, otherwise appends).
- `datetime.now()` is modelled by a logical clock: a `World` record threads a
  `Nat` clock and every `now` call returns the current clock and advances it.
  `uuid4()` draws a fresh identifier `"uuid-" ++ n` from a counter in `World`.
  The process-wide human task queue singleton also lives in `World`.
- UUID identities are modelled as `String`; the engine converts every id with
  `str(...)` before comparing, so this is faithful (`str` on a string is the
  identity).  A present id is always truthy, matching `uuid.UUID` objects.
- Fallible Python code is explicit: functions that can raise return the
  mutated state together with `Option PyErr` / `Except PyErr α`.  A call that
  passes a keyword argument a method signature does not declare raises
  `TypeError` at the call site, before the method body runs; attribute access
  on a pydantic model field that does not exist raises `AttributeError`.
  Both are modelled by the corresponding `PyErr` constructors.
- Wall-clock analytics payloads (`format_iso_duration` strings) are built by
  the engine at `workflow_engine.py` lines 186-194 and 211-216 but on every
  such path the subsequent `token.move(..., analytics=...)` or
  `token.update_status(..., analytics=...)` call raises `TypeError` before the
  payload could be recorded (`token.py` declares neither method with an
  `analytics` parameter), so the model elides the payload contents.
-/

/-- Python dynamic value as stored in token/context data maps.  -/
inductive Value where
  | none : Value
  | bool (b : Bool) : Value
  | int (n : Int) : Value
  | str (s : String) : Value
deriving DecidableEq

/-- Python `str(...)` on a `Value` (`str(None) = "None"`, `str(True) = "True"`). -/
def pyStr : Value → String
  | Value.none => "None"
  | Value.bool true => "True"
  | Value.bool false => "False"
  | Value.int n => toString n
  | Value.str s => s

/-- Python truthiness of a `Value`. -/
def pyTruthy : Value → Bool
  | Value.none => false
  | Value.bool b => b
  | Value.int n => decide (n ≠ 0)
  | Value.str s => decide (s ≠ "")

/-- Python truthiness of an optional value (a missing key behaves as `None`). -/
def pyTruthyOpt : Option Value → Bool
  | Option.none => false
  | Option.some v => pyTruthy v

/-- Insertion-ordered Python `dict` with `String` keys. -/
abbrev Dict (α : Type) : Type := List (String × α)

/-- Python `d.get(k)` / `d[k]` lookup (first — and only — binding of `k`). -/
def dictGet {α : Type} (d : Dict α) (k : String) : Option α :=
  match d.find? (fun p => p.1 == k) with
  | Option.some p => Option.some p.2
  | Option.none => Option.none

/-- Python `d[k] = v`: replace the binding in place if `k` is present,
otherwise append it. -/
def dictSet {α : Type} : Dict α → String → α → Dict α
  | [], k, v => [(k, v)]
  | (k', v') :: rest, k, v =>
      if k' == k then (k, v) :: rest else (k', v') :: dictSet rest k v

/-- Python `d.update(other)`: assign each binding of `other` in order. -/
def dictUpdate {α : Type} (d other : Dict α) : Dict α :=
  other.foldl (fun acc p => dictSet acc p.1 p.2) d

/-- `ActorType` enum of `types/__init__.py`. -/
inductive ActorType where
  | human | ai_agent | robot | application
deriving DecidableEq

/-- `AccessMode` enum of `types/__init__.py`.  Its members are the lower-case
`read`, `write`, `read_write`, `subscribe`, `publish`; it declares no
upper-case `READ` / `WRITE` / `READ_WRITE` members. -/
inductive AccessMode where
  | read | write | read_write | subscribe | publish
deriving DecidableEq

/-- `HitPolicy` enum of `types/__init__.py`. -/
inductive HitPolicy where
  | unique | first | priority | any | collect | rule_order
deriving DecidableEq

/-- `WasteCategory` enum of `types/__init__.py`. -/
inductive WasteCategory where
  | defects | overproduction | waiting | non_utilized_talent
  | transport | inventory | motion | extra_processing
deriving DecidableEq

/-- `.value` of a `WasteCategory` member. -/
def WasteCategory.value : WasteCategory → String
  | WasteCategory.defects => "defects"
  | WasteCategory.overproduction => "overproduction"
  | WasteCategory.waiting => "waiting"
  | WasteCategory.non_utilized_talent => "non_utilized_talent"
  | WasteCategory.transport => "transport"
  | WasteCategory.inventory => "inventory"
  | WasteCategory.motion => "motion"
  | WasteCategory.extra_processing => "extra_processing"

/-- `TokenStatus` enum of `runtime/token.py`. -/
inductive TokenStatus where
  | ACTIVE | COMPLETED | FAILED | WAITING | CANCELLED
deriving DecidableEq

/-- `.value` of a `TokenStatus` member. -/
def TokenStatus.value : TokenStatus → String
  | TokenStatus.ACTIVE => "active"
  | TokenStatus.COMPLETED => "completed"
  | TokenStatus.FAILED => "failed"
  | TokenStatus.WAITING => "waiting"
  | TokenStatus.CANCELLED => "cancelled"

/-- `EngineStatus` enum of `runtime/workflow_engine.py`. -/
inductive EngineStatus where
  | IDLE | RUNNING | PAUSED | COMPLETED | FAILED | WAITING_HUMAN
deriving DecidableEq

/-- Python exceptions observable on the embedded paths. -/
inductive PyErr where
  | typeError (msg : String) : PyErr
  | attributeError (msg : String) : PyErr
  | valueError (msg : String) : PyErr
deriving DecidableEq

/-- `ContextBinding` pydantic model (`types/__init__.py`), fields the runtime
reads; the optional `id` / `activity_id` / `transforms` metadata is elided. -/
structure ContextBinding where
  context_id : String
  access_mode : AccessMode
  required : Bool := true
deriving DecidableEq

/-- The engine reads a single field from an activity's declared `Analytics`
record (`getattr(activity.analytics, "value_added", True)`); the remaining
descriptive metadata fields are elided. -/
structure AnalyticsDecl where
  value_added : Option Bool := Option.none
deriving DecidableEq

/-- `TableColumn` pydantic model (`types/__init__.py`). -/
structure TableColumn where
  name : String
  type_ : String
deriving DecidableEq

/-- `DecisionRule` pydantic model: positional string input entries and the
output edge id (which may be absent). -/
structure DecisionRule where
  input_entries : List String
  output_entries : List Value := []
  output_edge_id : Option String := Option.none
deriving DecidableEq

/-- `DecisionTable` pydantic model. -/
structure DecisionTable where
  hit_policy : HitPolicy
  inputs : List TableColumn
  outputs : List TableColumn := []
  rules : List DecisionRule
deriving DecidableEq

/-- `DecisionNode` pydantic model. -/
structure DecisionNode where
  id : String
  name : String
  decision_table : DecisionTable
  default_output_edge_id : Option String := Option.none
deriving DecidableEq

/-- `Activity` pydantic model, restricted to the fields the runtime and
validator read (`id`, `name`, `role_id`, `actor_type`, `context_bindings`,
`analytics`); the remaining declarative metadata is elided. -/
structure Activity where
  id : String
  name : String
  role_id : String
  actor_type : ActorType
  context_bindings : List ContextBinding := []
  analytics : Option AnalyticsDecl := Option.none
deriving DecidableEq

/-- `Edge` pydantic model (advisory `condition` / `label` / `is_default`
metadata elided — the engine reads only the three ids). -/
structure Edge where
  id : String
  source_id : String
  target_id : String
deriving DecidableEq

/-- `Event` pydantic model; the runtime and validator read only its id. -/
structure EventNode where
  id : String
  name : String
deriving DecidableEq

/-- `Context` pydantic model, restricted to the fields the runtime reads.
Note that `types/__init__.py` (lines 191-203) declares NO `access_rights`
field on `Context`; `ContextManager.check_access` nevertheless dereferences
`context.access_rights`, which raises `AttributeError` on a pydantic model. -/
structure Context where
  id : String
  name : String
  initial_value : Option Value := Option.none
deriving DecidableEq

/-- `Workflow` pydantic model, restricted to the collections the runtime and
validator traverse. -/
structure Workflow where
  id : String
  name : String
  version : String
  activities : List Activity
  edges : List Edge
  events : List EventNode := []
  decision_nodes : List DecisionNode := []
  contexts : List Context := []
deriving DecidableEq

/-- `HumanTask` of `runtime/human_task_queue.py`: note that its constructor
stores an activity id, a workflow id, a status, an optional assignee, a data
payload and a creation time — it has no field for a token identity. -/
structure HumanTask where
  id : String
  activity_id : String
  workflow_id : String
  status : String
  assignee_id : Option String
  data : Dict Value
  created_at : Nat
deriving DecidableEq

/-- One entry of `Token.history` (`token.py` `_add_to_history`): node id,
timestamp, action and the `metrics` argument — which every internal caller
leaves at its default `None`. -/
structure HistoryEntry where
  node_id : String
  timestamp : Nat
  action : String
  metrics : Option (Dict Value)
deriving DecidableEq

/-- `Token` of `runtime/token.py`. -/
structure Token where
  id : String
  activity_id : String
  status : TokenStatus
  context_data : Dict Value
  history : List HistoryEntry
  parent_token_id : Option String
  workflow_id : Option String
  created_at : Nat
  updated_at : Nat
deriving DecidableEq

/-- Ambient process state: the logical clock standing in for
`datetime.now()`, the `uuid4()` counter, and the process-wide human task
queue singleton (`human_task_queue.py`, a dict keyed by task id). -/
structure World where
  clock : Nat
  uuid_counter : Nat
  task_queue : Dict HumanTask
deriving DecidableEq

/-- `datetime.now()`: read the logical clock and advance it. -/
def now (w : World) : Nat × World :=
  (w.clock, { w with clock := w.clock + 1 })

/-- `uuid4()`: a fresh identifier from the counter. -/
def uuid4 (w : World) : String × World :=
  ("uuid-" ++ toString w.uuid_counter, { w with uuid_counter := w.uuid_counter + 1 })

/-- `Token._add_to_history(node_id, action, metrics=None)`: append one entry
stamped with `datetime.now()`. -/
def Token.add_to_history (t : Token) (node_id action : String)
    (metrics : Option (Dict Value)) (w : World) : Token × World :=
  let (ts, w) := now w
  ({ t with history := t.history ++ [{ node_id := node_id, timestamp := ts,
                                       action := action, metrics := metrics }] }, w)

/-- `Token.__init__`: fresh uuid, status `ACTIVE`, a copy of the initial data,
empty history, `created_at` / `updated_at` stamps, then one `"created"`
history entry. -/
def Token.init (activity_id : String) (initial_data : Option (Dict Value))
    (parent_token_id : Option String) (workflow_id : Option String)
    (w : World) : Token × World :=
  let (tid, w) := uuid4 w
  let (c, w) := now w
  let (u, w) := now w
  let t : Token :=
    { id := tid, activity_id := activity_id, status := TokenStatus.ACTIVE,
      context_data := initial_data.getD [], history := [],
      parent_token_id := parent_token_id, workflow_id := workflow_id,
      created_at := c, updated_at := u }
  Token.add_to_history t activity_id "created" Option.none w

/-- `Token.move(next_activity_id)` — the source signature (`token.py` line 46)
takes no `analytics` parameter.  Appends the `"exited"` entry, updates the
current node, re-asserts `ACTIVE`, stamps `updated_at`, appends `"entered"`. -/
def Token.move (t : Token) (next_activity_id : String) (w : World) : Token × World :=
  let (t, w) := Token.add_to_history t t.activity_id "exited" Option.none w
  let (u, w) := now w
  let t := { t with activity_id := next_activity_id, status := TokenStatus.ACTIVE,
                    updated_at := u }
  Token.add_to_history t next_activity_id "entered" Option.none w

/-- `Token.update_status(status)` — the source signature (`token.py` line 54)
takes no `analytics` parameter. -/
def Token.update_status (t : Token) (status : TokenStatus) (w : World) : Token × World :=
  let (u, w) := now w
  let t := { t with status := status, updated_at := u }
  Token.add_to_history t t.activity_id ("status_change:" ++ status.value) Option.none w

/-- `Token.set_data(key, value)`. -/
def Token.set_data (t : Token) (key : String) (value : Value) (w : World) : Token × World :=
  let (u, w) := now w
  ({ t with context_data := dictSet t.context_data key value, updated_at := u }, w)

/-- `Token.get_data(key)`. -/
def Token.get_data (t : Token) (key : String) : Option Value :=
  dictGet t.context_data key

/-- `Token.merge_data(data)`. -/
def Token.merge_data (t : Token) (data : Dict Value) (w : World) : Token × World :=
  let (u, w) := now w
  ({ t with context_data := dictUpdate t.context_data data, updated_at := u }, w)

/-- `ContextManager` (`runtime/context_manager.py`): definitions dict and one
data dict per context id. -/
structure ContextManager where
  contexts : Dict Context
  data : Dict (Dict Value)
deriving DecidableEq

/-- `ContextManager.__init__(contexts)`: register each declared context and
initialise its data map EMPTY — `ctx.initial_value` is never consulted. -/
def ContextManager.init (contexts : List Context) : ContextManager :=
  contexts.foldl
    (fun cm ctx =>
      { cm with contexts := dictSet cm.contexts ctx.id ctx,
                data := dictSet cm.data ctx.id [] })
    { contexts := [], data := [] }

/-- `ContextManager.read(context_id)`: `dict(self._data.get(context_id, {}))` —
a shallow copy (value semantics in the model) of the stored map, empty for an
unknown id, and no mutation of the manager (the function does not return a
changed manager). -/
def ContextManager.read (cm : ContextManager) (context_id : String) : Dict Value :=
  (dictGet cm.data context_id).getD []

/-- `ContextManager.get_all_data()`: a copy of every context's data map. -/
def ContextManager.get_all_data (cm : ContextManager) : Dict (Dict Value) :=
  cm.data

/-- `ContextManager.check_access(context_id, role_id, mode)`
(`context_manager.py` lines 51-77).  For an unknown context id it returns
`False`.  For a known context the source immediately evaluates
`context.access_rights` — but the `Context` pydantic model
(`types/__init__.py` lines 191-203) declares no `access_rights` field, so the
attribute access raises `AttributeError` before any grant can be examined.
(Had that loop been reached, its `AccessMode.READ` / `AccessMode.WRITE` /
`AccessMode.READ_WRITE` references would raise `AttributeError` as well: the
`AccessMode` enum only declares lower-case members.) -/
def ContextManager.check_access (cm : ContextManager) (context_id : String)
    (_role_id : String) (_mode : AccessMode) : Except PyErr Bool :=
  match dictGet cm.contexts context_id with
  | Option.none => Except.ok false
  | Option.some _context =>
      Except.error (PyErr.attributeError "Context object has no attribute access_rights")

/-- `ValidationError` dataclass of `validator/__init__.py`. -/
structure ValidationErr where
  path : String
  message : String
  code : String
deriving DecidableEq

/-- `ValidationResult` dataclass of `validator/__init__.py`.  It is a plain
`@dataclass` defining neither `__bool__` nor `__len__`, so EVERY instance —
valid or not — is truthy in Python. -/
structure ValidationResult where
  valid : Bool
  errors : List ValidationErr
deriving DecidableEq

/-- Python truthiness of a `ValidationResult` instance: always `True`
(a dataclass instance with no `__bool__` / `__len__`). -/
def ValidationResult.pyBool (_r : ValidationResult) : Bool := true

/-- `validate_workflow_integrity(workflow)` (`validator/__init__.py` lines
68-110): every edge's source and target must be a declared activity, event or
decision-node id, and every activity context binding must reference a
declared context id. -/
def validate_workflow_integrity (workflow : Workflow) : ValidationResult :=
  let node_ids : List String :=
    workflow.activities.map Activity.id ++ workflow.events.map EventNode.id ++
      workflow.decision_nodes.map DecisionNode.id
  let edge_errors : List ValidationErr :=
    workflow.edges.foldl
      (fun errs edge =>
        let errs :=
          if node_ids.contains edge.source_id then errs
          else errs ++ [{ path := "edges[" ++ edge.id ++ "].source_id",
                          message := "Source node '" ++ edge.source_id ++ "' not found",
                          code := "invalid_reference" }]
        if node_ids.contains edge.target_id then errs
        else errs ++ [{ path := "edges[" ++ edge.id ++ "].target_id",
                        message := "Target node '" ++ edge.target_id ++ "' not found",
                        code := "invalid_reference" }])
      []
  let context_ids : List String := workflow.contexts.map Context.id
  let binding_errors : List ValidationErr :=
    workflow.activities.foldl
      (fun errs activity =>
        activity.context_bindings.foldl
          (fun errs binding =>
            if context_ids.contains binding.context_id then errs
            else errs ++ [{ path := "activities[" ++ activity.id ++ "].context_bindings",
                            message := "Context '" ++ binding.context_id ++ "' not found",
                            code := "invalid_reference" }])
          errs)
      []
  let errors := edge_errors ++ binding_errors
  { valid := decide (errors.length = 0), errors := errors }

/-- The loop body of `DecisionEvaluator._evaluate_rule` (`decision_evaluator.py`
lines 41-52): walk the rule's positional entries together with the table's
input columns; `break` (accept) once the entries outrun the declared columns;
reject on the first entry whose string form differs from the string form of
`context_data.get(column.name)` (a missing key reads as `None`). -/
def evaluate_rule_loop (context_data : Dict Value) :
    List String → List TableColumn → Bool
  | [], _ => true
  | _ :: _, [] => true
  | entry :: entries, col :: cols =>
      if pyStr ((dictGet context_data col.name).getD Value.none) == entry then
        evaluate_rule_loop context_data entries cols
      else
        false

/-- `DecisionEvaluator._evaluate_rule(rule, table, context_data)`. -/
def evaluate_rule (rule : DecisionRule) (table : DecisionTable)
    (context_data : Dict Value) : Bool :=
  evaluate_rule_loop context_data rule.input_entries table.inputs

/-- The `for rule in table.rules: if ...: return rule.output_edge_id` loop of
`DecisionEvaluator.evaluate`. -/
def evaluate_rules_loop (table : DecisionTable) (context_data : Dict Value) :
    List DecisionRule → Option (Option String)
  | [] => Option.none
  | rule :: rules =>
      if evaluate_rule rule table context_data then
        Option.some rule.output_edge_id
      else
        evaluate_rules_loop table context_data rules

/-- `DecisionEvaluator.evaluate(node, context_data)` (`decision_evaluator.py`
lines 13-30): first matching rule's output edge id, else the node's default
output edge id (either of which may be absent). -/
def DecisionEvaluator.evaluate (node : DecisionNode) (context_data : Dict Value) :
    Option String :=
  match evaluate_rules_loop node.decision_table context_data node.decision_table.rules with
  | Option.some edge_id => edge_id
  | Option.none => node.default_output_edge_id

/-- Rule matching in the spec's words: a rule matches iff every positional
input entry, paired with the table's declared input columns (entries beyond
the declared columns are ignored, which is what `List.zip` truncation says),
has the same string form as the context value of the column's name. -/
def ruleMatchesSpec (rule : DecisionRule) (table : DecisionTable)
    (context_data : Dict Value) : Bool :=
  (rule.input_entries.zip table.inputs).all
    (fun p => pyStr ((dictGet context_data p.2.name).getD Value.none) == p.1)

/-- Decision evaluation in the spec's words: scan the rules in declaration
order for the first match and return its output edge identity; fall back to
the declared default edge identity (possibly absent). -/
def evaluateSpec (node : DecisionNode) (context_data : Dict Value) : Option String :=
  match node.decision_table.rules.find?
      (fun rule => ruleMatchesSpec rule node.decision_table context_data) with
  | Option.some rule => rule.output_edge_id
  | Option.none => node.default_output_edge_id

/-- An actor implementation: `execute(activity, token) -> dict`, threading the
ambient world (clock / uuid counter / process-wide task queue) and allowed to
raise. -/
abbrev ActorImpl : Type := Activity → Token → World → World × Except PyErr (Dict Value)

/-- `SoftwareAgent.execute` (`actors/software_agent.py`). -/
def SoftwareAgent.execute : ActorImpl := fun activity _token w =>
  (w, Except.ok [("_actor", Value.str "software_agent"),
                 ("_activity", Value.str activity.name),
                 ("_completed", Value.bool true)])

/-- `AIAgent.execute` (`actors/ai_agent.py`): with no API key configured it
returns the simulated-completion map; with a key it returns the (stubbed)
completion map.  Neither branch raises. -/
def AIAgent.execute (api_key : Option String) : ActorImpl := fun activity _token w =>
  match api_key with
  | Option.none =>
      (w, Except.ok [("_actor", Value.str "ai_agent"),
                     ("_activity", Value.str activity.name),
                     ("_simulated", Value.bool true),
                     ("_completed", Value.bool true)])
  | Option.some _ =>
      (w, Except.ok [("_actor", Value.str "ai_agent"),
                     ("_activity", Value.str activity.name),
                     ("_completed", Value.bool true)])

/-- `HumanTask.__init__` (`human_task_queue.py` lines 11-27): fresh uuid,
status `"pending"`, `created_at` stamp.  The constructor receives no token
identity and the class stores none. -/
def HumanTask.init (activity_id workflow_id : String) (data : Dict Value)
    (assignee_id : Option String) (w : World) : HumanTask × World :=
  let (tid, w) := uuid4 w
  let (c, w) := now w
  ({ id := tid, activity_id := activity_id, workflow_id := workflow_id,
     status := "pending", assignee_id := assignee_id, data := data,
     created_at := c }, w)

/-- `HumanTaskQueue.add(task)` on the process-wide singleton queue:
`self._tasks[task.id] = task`. -/
def taskQueueAdd (w : World) (task : HumanTask) : World :=
  { w with task_queue := dictSet w.task_queue task.id task }

/-- `HumanAgent.execute` (`actors/human_agent.py` lines 16-31): build a
`HumanTask` from the activity id, `str(token.workflow_id or "")` and the
token's context data, add it to the process-wide queue, and return
immediately (no blocking — this is a plain synchronous return) with a map
carrying the new task's id. -/
def HumanAgent.execute : ActorImpl := fun activity token w =>
  let (task, w) := HumanTask.init activity.id (token.workflow_id.getD "")
      token.context_data Option.none w
  let w := taskQueueAdd w task
  (w, Except.ok [("_actor", Value.str "human_agent"),
                 ("_activity", Value.str activity.name),
                 ("_human_task_id", Value.str task.id),
                 ("_completed", Value.bool true)])

/-- `RobotAgent.execute` (`actors/robot_agent.py`). -/
def RobotAgent.execute : ActorImpl := fun activity _token w =>
  (w, Except.ok [("_actor", Value.str "robot_agent"),
                 ("_activity", Value.str activity.name),
                 ("_simulated", Value.bool true),
                 ("_completed", Value.bool true)])

/-- The `self._actors` dict built by `WorkflowEngine.__init__` (lines 80-85):
the four built-in actors, keyed by actor type. -/
def builtinActors (api_key : Option String) : ActorType → Option ActorImpl
  | ActorType.application => Option.some SoftwareAgent.execute
  | ActorType.ai_agent => Option.some (AIAgent.execute api_key)
  | ActorType.human => Option.some HumanAgent.execute
  | ActorType.robot => Option.some RobotAgent.execute

/-- The snapshot `run()` returns on completion: top-level status string, every
token's full state (`Token.to_dict` serialises exactly the token's fields) and
every context's current data. -/
structure RunResult where
  status : String
  tokens : List Token
  contexts : Dict (Dict Value)
deriving DecidableEq

/-- Outcome of `run()` in the model: a returned result, a raised exception, or
fuel exhaustion of the modelled `while` loop (the loop has no bound in the
source; the model makes the bound explicit). -/
inductive RunOutcome where
  | completed (result : RunResult) : RunOutcome
  | raised (e : PyErr) : RunOutcome
  | fuelExhausted : RunOutcome
deriving DecidableEq

/-- `WorkflowEngine` instance state (`workflow_engine.py` lines 59-94). -/
structure Engine where
  workflow : Workflow
  gemini_api_key : Option String
  context_manager : ContextManager
  tokens : Dict Token
  status : EngineStatus
  activities_by_id : Dict Activity
  decision_nodes_by_id : Dict DecisionNode
  actors : ActorType → Option ActorImpl
  start_activity : Option Activity

/-- `WorkflowEngine._find_start_activity` (lines 146-154): first activity that
is no edge's target, else the first declared activity, else nothing. -/
def find_start_activity (workflow : Workflow) : Option Activity :=
  let target_ids := workflow.edges.map Edge.target_id
  match workflow.activities.find? (fun a => ¬ target_ids.contains a.id) with
  | Option.some a => Option.some a
  | Option.none => workflow.activities.head?

/-- `WorkflowEngine.__init__` (lines 59-94).  The constructor ends with
`if not validate_workflow_integrity(workflow): raise ValueError(...)` — but
`validate_workflow_integrity` returns a `ValidationResult` dataclass instance,
which is ALWAYS truthy (`ValidationResult.pyBool`), so the `raise` branch is
dead code and construction succeeds for every workflow. -/
def WorkflowEngine.pyInit (workflow : Workflow) (gemini_api_key : Option String)
    (w : World) : World × Except PyErr Engine :=
  let engine : Engine :=
    { workflow := workflow,
      gemini_api_key := gemini_api_key,
      context_manager := ContextManager.init workflow.contexts,
      tokens := [],
      status := EngineStatus.IDLE,
      activities_by_id := workflow.activities.foldl (fun d a => dictSet d a.id a) [],
      decision_nodes_by_id := workflow.decision_nodes.foldl (fun d n => dictSet d n.id n) [],
      actors := builtinActors gemini_api_key,
      start_activity := find_start_activity workflow }
  if (validate_workflow_integrity workflow).pyBool then
    (w, Except.ok engine)
  else
    (w, Except.error (PyErr.valueError "Invalid workflow definition"))

/-- `WorkflowEngine._has_active_tokens`. -/
def has_active_tokens (e : Engine) : Bool :=
  e.tokens.any (fun p => p.2.status = TokenStatus.ACTIVE)

/-- `WorkflowEngine._find_next_node(source_id)`: target of the first edge
whose source matches. -/
def find_next_node (workflow : Workflow) (source_id : String) : Option String :=
  (workflow.edges.find? (fun edge => edge.source_id == source_id)).map Edge.target_id

/-- `WorkflowEngine._find_target_by_edge(edge_id)`. -/
def find_target_by_edge (workflow : Workflow) (edge_id : String) : Option String :=
  (workflow.edges.find? (fun edge => edge.id == edge_id)).map Edge.target_id

/-- `WorkflowEngine._execute_activity(activity, token)`: dispatch through the
actor dict; an unregistered actor kind completes with `{_completed: True}`. -/
def execute_activity (e : Engine) (activity : Activity) (token : Token)
    (w : World) : World × Except PyErr (Dict Value) :=
  match e.actors activity.actor_type with
  | Option.some actor => actor activity token w
  | Option.none => (w, Except.ok [("_completed", Value.bool true)])

/-- The `TypeError` Python raises when the engine calls
`token.update_status(..., analytics=analytics)` (`workflow_engine.py` lines
199, 207, 217 and 292) against the source signature
`def update_status(self, status)` (`token.py` line 54), which declares no
`analytics` parameter.  The error is raised at the call site, before the
method body runs, so the token's status is NOT changed by such a call. -/
def analyticsKwargTypeError : PyErr :=
  PyErr.typeError "update_status() got an unexpected keyword argument 'analytics'"

/-- One iteration of the `for token in active_tokens` loop of
`WorkflowEngine._execute_step` (lines 170-244), processing the token stored
under `tid`.  Returns the state as mutated up to the point of a raised
exception, if any.

Activity nodes (lines 176-220): the `try` block calls the actor; on success
it merges the result into the token and then — whichever of the three
continuations is taken (`update_status(WAITING, analytics=...)` at line 199,
`move(next, analytics=...)` at line 205, or
`update_status(COMPLETED, analytics=...)` at line 207) — raises `TypeError`,
because `token.py` declares neither method with an `analytics` parameter.
The `except` handler (lines 209-219) catches that error (or an error raised
by the actor itself) and then raises its own `TypeError` at line 217, again
passing `analytics=` to `update_status`; that second error propagates out of
the step.  Consequently no activity step ever changes a token's status, and
line 200 (`set_data("_waiting_since", ...)`) is unreachable.

Decision nodes (lines 223-241) and unknown nodes (line 244) call `move` /
`update_status` without keyword arguments and succeed. -/
def processToken (w : World) (e : Engine) (tid : String) : (World × Engine) × Option PyErr :=
  match dictGet e.tokens tid with
  | Option.none => ((w, e), Option.none)
  | Option.some token =>
    let node_id := token.activity_id
    let (_start_time, w) := now w
    match dictGet e.activities_by_id node_id with
    | Option.some activity =>
        match execute_activity e activity token w with
        | (w, Except.error _actor_exc) =>
            let (_end_time, w) := now w
            ((w, e), Option.some analyticsKwargTypeError)
        | (w, Except.ok result) =>
            let (token, w) := Token.merge_data token result w
            let e := { e with tokens := dictSet e.tokens tid token }
            let (_end_time, w) := now w
            let (_except_time, w) := now w
            ((w, e), Option.some analyticsKwargTypeError)
    | Option.none =>
      match dictGet e.decision_nodes_by_id node_id with
      | Option.some decision =>
          let edge_id := DecisionEvaluator.evaluate decision token.context_data
          match edge_id with
          | Option.some eid =>
              match find_target_by_edge e.workflow eid with
              | Option.some next_node =>
                  let (token, w) := Token.move token next_node w
                  ((w, { e with tokens := dictSet e.tokens tid token }), Option.none)
              | Option.none =>
                  let (token, w) := Token.update_status token TokenStatus.FAILED w
                  ((w, { e with tokens := dictSet e.tokens tid token }), Option.none)
          | Option.none =>
              let (token, w) := Token.update_status token TokenStatus.FAILED w
              ((w, { e with tokens := dictSet e.tokens tid token }), Option.none)
      | Option.none =>
          let (token, w) := Token.update_status token TokenStatus.FAILED w
          ((w, { e with tokens := dictSet e.tokens tid token }), Option.none)

/-- Ids of the tokens in the `active_tokens` snapshot taken at the top of
`_execute_step` (lines 165-168). -/
def activeTokenIds (e : Engine) : List String :=
  (e.tokens.filter (fun p => p.2.status = TokenStatus.ACTIVE)).map Prod.fst

/-- The `for` loop of `_execute_step` over the snapshot: a raised exception
aborts the loop and propagates. -/
def runTokenLoop : List String → World → Engine → (World × Engine) × Option PyErr
  | [], w, e => ((w, e), Option.none)
  | tid :: rest, w, e =>
      match processToken w e tid with
      | (s, Option.some err) => (s, Option.some err)
      | ((w, e), Option.none) => runTokenLoop rest w e

/-- `WorkflowEngine._execute_step` (lines 163-244). -/
def execute_step (w : World) (e : Engine) : (World × Engine) × Option PyErr :=
  runTokenLoop (activeTokenIds e) w e

/-- The `while self._has_active_tokens(): self._execute_step()` loop of
`run` together with the surrounding `try` (lines 129-144): an exception sets
engine status `FAILED` and is re-raised; normal exit sets `COMPLETED` and
returns the snapshot. -/
def runLoop : Nat → World → Engine → (World × Engine) × RunOutcome
  | 0, w, e => ((w, e), RunOutcome.fuelExhausted)
  | fuel + 1, w, e =>
      if has_active_tokens e then
        match execute_step w e with
        | ((w, e), Option.some err) =>
            ((w, { e with status := EngineStatus.FAILED }), RunOutcome.raised err)
        | ((w, e), Option.none) => runLoop fuel w e
      else
        let e := { e with status := EngineStatus.COMPLETED }
        ((w, e), RunOutcome.completed
          { status := "completed", tokens := e.tokens.map Prod.snd,
            contexts := e.context_manager.get_all_data })

/-- `WorkflowEngine.run(initial_data)` (lines 106-144). -/
def WorkflowEngine.run (w : World) (e : Engine) (initial_data : Option (Dict Value))
    (fuel : Nat) : (World × Engine) × RunOutcome :=
  let e := { e with status := EngineStatus.RUNNING }
  match e.start_activity with
  | Option.none =>
      ((w, { e with status := EngineStatus.FAILED }),
       RunOutcome.raised (PyErr.valueError "No start activity found"))
  | Option.some start =>
      let (token, w) := Token.init start.id initial_data Option.none
          (Option.some e.workflow.id) w
      let e := { e with tokens := dictSet e.tokens token.id token }
      runLoop fuel w e

/-- `WorkflowEngine.resume_token(token_id, output)` (lines 274-297).  Unknown
or non-`WAITING` token: return `False`, no mutation.  A `WAITING` token: the
source reads the `_waiting_since` stamp (taking a `datetime.now()` reading
when it is present), merges `output` into the token's data, and then calls
`token.update_status(TokenStatus.ACTIVE, analytics=analytics)` — which raises
`TypeError` (no `analytics` parameter in `token.py`), so the merge survives
but the status transition and the `True` return are never reached. -/
def WorkflowEngine.resume_token (w : World) (e : Engine) (token_id : String)
    (output : Dict Value) : (World × Engine) × Except PyErr Bool :=
  match dictGet e.tokens token_id with
  | Option.none => ((w, e), Except.ok false)
  | Option.some token =>
      if token.status ≠ TokenStatus.WAITING then
        ((w, e), Except.ok false)
      else
        let w := match Token.get_data token "_waiting_since" with
                 | Option.some _ => (now w).2
                 | Option.none => w
        let (token, w) := Token.merge_data token output w
        let e := { e with tokens := dictSet e.tokens token_id token }
        ((w, e), Except.error analyticsKwargTypeError)

/-- The public mutating operations of `Token` (`token.py`), as an operation
alphabet so that properties can be stated over arbitrary call sequences. -/
inductive TokenOp where
  | move (next : String) : TokenOp
  | update_status (status : TokenStatus) : TokenOp
  | set_data (key : String) (value : Value) : TokenOp
  | merge_data (data : Dict Value) : TokenOp

/-- Apply one `Token` operation. -/
def applyTokenOp : Token × World → TokenOp → Token × World
  | (t, w), TokenOp.move next => Token.move t next w
  | (t, w), TokenOp.update_status status => Token.update_status t status w
  | (t, w), TokenOp.set_data key value => Token.set_data t key value w
  | (t, w), TokenOp.merge_data data => Token.merge_data t data w

/-- Apply a sequence of `Token` operations. -/
def applyTokenOps (s : Token × World) (ops : List TokenOp) : Token × World :=
  ops.foldl applyTokenOp s

/-- History invariant relative to the logical clock `c`: the history starts
with the `"created"` entry, its timestamps strictly increase, and all of them
lie strictly below the clock. -/
def histInvL (l : List HistoryEntry) (c : Nat) : Prop :=
  l ≠ [] ∧
  l.head?.map HistoryEntry.action = Option.some "created" ∧
  List.Chain' (fun a b => a.timestamp < b.timestamp) l ∧
  ∀ en ∈ l, en.timestamp < c

/-- History invariant of a token. -/
def histInv (t : Token) (c : Nat) : Prop :=
  histInvL t.history c

theorem histInvL_mono {l : List HistoryEntry} {c c' : Nat} (h : histInvL l c)
    (hc : c ≤ c') : histInvL l c' := by
  obtain ⟨h1, h2, h3, h4⟩ := h
  exact ⟨h1, h2, h3, fun en hen => lt_of_lt_of_le (h4 en hen) hc⟩

theorem histInvL_append {l : List HistoryEntry} {c : Nat} (n a : String)
    (m : Option (Dict Value)) (h : histInvL l c) :
    histInvL (l ++ [{ node_id := n, timestamp := c, action := a, metrics := m }]) (c + 1) := by
  obtain ⟨h1, h2, h3, h4⟩ := h
  obtain ⟨e0, rest, hl⟩ : ∃ e0 rest, l = e0 :: rest := by
    cases hh : l with
    | nil => exact absurd hh h1
    | cons e0 rest => exact ⟨e0, rest, rfl⟩
  refine ⟨by simp [hl], by simpa [hl] using h2, ?_, ?_⟩
  · refine List.Chain'.append h3 (List.chain'_singleton _) ?_
    intro x hx y hy
    simp only [List.head?_cons, Option.mem_def, Option.some.injEq] at hy
    have hxl : x ∈ l := by
      obtain ⟨hne, hxe⟩ := List.mem_getLast?_eq_getLast hx
      exact hxe ▸ List.getLast_mem hne
    subst hy
    simpa using h4 x hxl
  · intro en hen
    rcases List.mem_append.mp hen with hen | hen
    · exact Nat.lt_succ_of_lt (h4 en hen)
    · simp only [List.mem_singleton] at hen
      subst hen
      exact Nat.lt_succ_self _

theorem histInv_init (activity_id : String) (initial_data : Option (Dict Value))
    (parent_token_id workflow_id : Option String) (w : World) :
    histInv (Token.init activity_id initial_data parent_token_id workflow_id w).1
      (Token.init activity_id initial_data parent_token_id workflow_id w).2.clock := by
  refine ⟨?_, ?_, ?_, ?_⟩ <;>
    simp [Token.init, Token.add_to_history, uuid4, now, List.chain'_singleton]

theorem histInv_applyTokenOp {s : Token × World} (op : TokenOp)
    (h : histInv s.1 s.2.clock) :
    histInv (applyTokenOp s op).1 (applyTokenOp s op).2.clock := by
  obtain ⟨t, w⟩ := s
  cases op with
  | move next =>
      have h1 := histInvL_append (c := w.clock) t.activity_id "exited" Option.none h
      have h2 : histInvL (t.history ++
          [{ node_id := t.activity_id, timestamp := w.clock, action := "exited",
             metrics := Option.none }]) (w.clock + 1 + 1) :=
        histInvL_mono h1 (Nat.le_succ _)
      have h3 := histInvL_append (c := w.clock + 1 + 1) next "entered" Option.none h2
      show histInvL _ _
      simpa [applyTokenOp, Token.move, Token.add_to_history, now] using h3
  | update_status status =>
      have h2 : histInvL t.history (w.clock + 1) := histInvL_mono h (Nat.le_succ _)
      have h3 := histInvL_append (c := w.clock + 1) t.activity_id
        ("status_change:" ++ status.value) Option.none h2
      show histInvL _ _
      simpa [applyTokenOp, Token.update_status, Token.add_to_history, now] using h3
  | set_data key value =>
      show histInvL _ _
      simp only [applyTokenOp, Token.set_data, now]
      exact histInvL_mono h (Nat.le_succ _)
  | merge_data data =>
      show histInvL _ _
      simp only [applyTokenOp, Token.merge_data, now]
      exact histInvL_mono h (Nat.le_succ _)

theorem histInv_applyTokenOps {s : Token × World} (ops : List TokenOp)
    (h : histInv s.1 s.2.clock) :
    histInv (applyTokenOps s ops).1 (applyTokenOps s ops).2.clock := by
  induction ops generalizing s with
  | nil => exact h
  | cons op ops ih =>
      have hstep := histInv_applyTokenOp (s := s) op h
      simpa [applyTokenOps, List.foldl_cons] using
        ih (s := applyTokenOp s op) hstep

theorem applyTokenOp_history_append (s : Token × World) (op : TokenOp) :
    ∃ l, (applyTokenOp s op).1.history = s.1.history ++ l := by
  obtain ⟨t, w⟩ := s
  cases op with
  | move next =>
      refine ⟨[{ node_id := t.activity_id, timestamp := w.clock, action := "exited",
                 metrics := Option.none },
               { node_id := next, timestamp := w.clock + 1 + 1, action := "entered",
                 metrics := Option.none }], ?_⟩
      simp [applyTokenOp, Token.move, Token.add_to_history, now]
  | update_status status =>
      refine ⟨[{ node_id := t.activity_id, timestamp := w.clock + 1,
                 action := "status_change:" ++ status.value,
                 metrics := Option.none }], ?_⟩
      simp [applyTokenOp, Token.update_status, Token.add_to_history, now]
  | set_data key value => exact ⟨[], by simp [applyTokenOp, Token.set_data]⟩
  | merge_data data => exact ⟨[], by simp [applyTokenOp, Token.merge_data]⟩

theorem dictGet_mem {α : Type} {d : Dict α} {k : String} {v : α}
    (h : dictGet d k = Option.some v) : (k, v) ∈ d := by
  induction d with
  | nil => simp [dictGet] at h
  | cons q rest ih =>
      obtain ⟨k', v'⟩ := q
      by_cases hk : k' == k
      · rw [dictGet, List.find?_cons_of_pos _ (by simpa using hk)] at h
        simp only [Option.some.injEq] at h
        have : k' = k := by simpa using hk
        subst this
        subst h
        exact List.mem_cons_self _ _
      · rw [dictGet, List.find?_cons_of_neg _ (by simpa using hk)] at h
        exact List.mem_cons_of_mem _ (ih h)

theorem mem_dictSet {α : Type} {d : Dict α} {k : String} {v : α} {p : String × α}
    (h : p ∈ dictSet d k v) : p ∈ d ∨ p = (k, v) := by
  induction d with
  | nil =>
      simp only [dictSet, List.mem_singleton] at h
      exact Or.inr h
  | cons q rest ih =>
      obtain ⟨k', v'⟩ := q
      by_cases hk : k' == k
      · simp only [dictSet, if_pos hk, List.mem_cons] at h
        rcases h with h | h
        · exact Or.inr h
        · exact Or.inl (List.mem_cons_of_mem _ h)
      · simp only [dictSet, if_neg hk, List.mem_cons] at h
        rcases h with h | h
        · exact Or.inl (by simp [h])
        · rcases ih h with h | h
          · exact Or.inl (List.mem_cons_of_mem _ h)
          · exact Or.inr h

theorem dictGet_dictSet_self {α : Type} (d : Dict α) (k : String) (v : α) :
    dictGet (dictSet d k v) k = Option.some v := by
  induction d with
  | nil => simp [dictSet, dictGet]
  | cons q rest ih =>
      obtain ⟨k', v'⟩ := q
      by_cases hk : k' = k
      · subst hk
        simp [dictSet, dictGet]
      · rw [dictSet, if_neg (by simpa using hk), dictGet,
          List.find?_cons_of_neg _ (by simpa using hk)]
        exact ih

theorem dictGet_dictSet_ne {α : Type} (d : Dict α) {k k' : String} (v : α)
    (hne : k' ≠ k) : dictGet (dictSet d k' v) k = dictGet d k := by
  induction d with
  | nil => simp [dictSet, dictGet, List.find?_cons, hne]
  | cons q rest ih =>
      obtain ⟨k'', v''⟩ := q
      by_cases hk : k'' == k'
      · have : k'' = k' := by simpa using hk
        subst this
        rw [dictSet, if_pos (by simp)]
        rw [dictGet, List.find?_cons_of_neg _ (by simpa using hne)]
        rw [dictGet, List.find?_cons_of_neg _ (by simpa using hne)]
      · rw [dictSet, if_neg hk]
        by_cases hk2 : k'' == k
        · rw [dictGet, List.find?_cons_of_pos _ (by simpa using hk2)]
          rw [dictGet, List.find?_cons_of_pos _ (by simpa using hk2)]
        · rw [dictGet, List.find?_cons_of_neg _ (by simpa using hk2)]
          rw [dictGet, List.find?_cons_of_neg _ (by simpa using hk2)]
          exact ih

/-- No token of the engine is in `WAITING` status. -/
def NoWaiting (e : Engine) : Prop :=
  ∀ p ∈ e.tokens, p.2.status ≠ TokenStatus.WAITING

theorem NoWaiting.set {e : Engine} {tid : String} {t : Token} (h : NoWaiting e)
    (ht : t.status ≠ TokenStatus.WAITING) :
    NoWaiting { e with tokens := dictSet e.tokens tid t } := by
  intro p hp
  rcases mem_dictSet hp with hp | hp
  · exact h p hp
  · subst hp
    exact ht

theorem status_move (t : Token) (n : String) (w : World) :
    (Token.move t n w).1.status = TokenStatus.ACTIVE := by
  simp [Token.move, Token.add_to_history, now]

theorem status_update_status (t : Token) (st : TokenStatus) (w : World) :
    (Token.update_status t st w).1.status = st := by
  simp [Token.update_status, Token.add_to_history, now]

theorem status_merge_data (t : Token) (d : Dict Value) (w : World) :
    (Token.merge_data t d w).1.status = t.status := by
  simp [Token.merge_data, now]

theorem status_init (a : String) (d : Option (Dict Value)) (p wf : Option String)
    (w : World) : (Token.init a d p wf w).1.status = TokenStatus.ACTIVE := by
  simp [Token.init, Token.add_to_history, uuid4, now]

theorem noWaiting_processToken {w : World} {e : Engine} {tid : String}
    (h : NoWaiting e) : NoWaiting (processToken w e tid).1.2 := by
  unfold processToken
  cases htok : dictGet e.tokens tid with
  | none => simp only [htok]; exact h
  | some token =>
    simp only [htok]
    have htmem : token.status ≠ TokenStatus.WAITING := h _ (dictGet_mem htok)
    cases hact : dictGet e.activities_by_id token.activity_id with
    | some activity =>
        simp only [hact]
        rcases hex : execute_activity e activity token (now w).2 with ⟨w2, r⟩
        cases r with
        | error exc => exact h
        | ok result => exact h.set (by rw [status_merge_data]; exact htmem)
    | none =>
        simp only [hact]
        cases hdec : dictGet e.decision_nodes_by_id token.activity_id with
        | some decision =>
            simp only [hdec]
            cases heval : DecisionEvaluator.evaluate decision token.context_data with
            | some eid =>
                simp only [heval]
                cases htgt : find_target_by_edge e.workflow eid with
                | some next_node =>
                    simp only [htgt]
                    exact h.set (by rw [status_move]; decide)
                | none =>
                    simp only [htgt]
                    exact h.set (by rw [status_update_status]; decide)
            | none =>
                simp only [heval]
                exact h.set (by rw [status_update_status]; decide)
        | none =>
            simp only [hdec]
            exact h.set (by rw [status_update_status]; decide)

theorem NoWaiting.of_tokens_eq {e e' : Engine} (h : NoWaiting e)
    (ht : e'.tokens = e.tokens) : NoWaiting e' :=
  fun p hp => h p (ht ▸ hp)

theorem noWaiting_resume_token {w : World} {e : Engine} {tid : String}
    {output : Dict Value} (h : NoWaiting e) :
    NoWaiting (WorkflowEngine.resume_token w e tid output).1.2 := by
  unfold WorkflowEngine.resume_token
  cases htok : dictGet e.tokens tid with
  | none => simp only [htok]; exact h
  | some token =>
    simp only [htok]
    have htmem : token.status ≠ TokenStatus.WAITING := h _ (dictGet_mem htok)
    rw [if_pos htmem]
    exact h

/-- The engine state after `run()` has created and registered the initial
token and set the engine `RUNNING` (`workflow_engine.py` lines 110-123). -/
def seedEngine (e : Engine) (t : Token) : Engine :=
  { e with status := EngineStatus.RUNNING, tokens := dictSet e.tokens t.id t }

/-- Engine states reachable through the engine's public operations, at the
granularity of the run loop's individual mutations: construction
(`__init__`), `run`'s initial token creation, one iteration of the
`_execute_step` token loop (including the state left behind at the point a
step raises), `resume_token`, and the engine-status assignments performed by
`run`.  Every state occurring during an actual `run()` / `resume_token`
interleaving is reachable in this relation. -/
inductive Reachable : World → Engine → Prop where
  | boot (workflow : Workflow) (api_key : Option String) (w w' : World) (e : Engine)
      (h : WorkflowEngine.pyInit workflow api_key w = (w', Except.ok e)) :
      Reachable w' e
  | seed {w : World} {e : Engine} (hr : Reachable w e) (start : Activity)
      (initial_data : Option (Dict Value))
      (hs : e.start_activity = Option.some start) :
      Reachable (Token.init start.id initial_data Option.none (Option.some e.workflow.id) w).2
        (seedEngine e (Token.init start.id initial_data Option.none (Option.some e.workflow.id) w).1)
  | step {w : World} {e : Engine} (hr : Reachable w e) (tid : String) :
      Reachable (processToken w e tid).1.1 (processToken w e tid).1.2
  | resume {w : World} {e : Engine} (hr : Reachable w e) (tid : String)
      (output : Dict Value) :
      Reachable (WorkflowEngine.resume_token w e tid output).1.1
        (WorkflowEngine.resume_token w e tid output).1.2
  | mark {w : World} {e : Engine} (hr : Reachable w e) (st : EngineStatus) :
      Reachable w { e with status := st }

theorem reachable_noWaiting {w : World} {e : Engine} (h : Reachable w e) :
    NoWaiting e := by
  induction h with
  | boot workflow api_key w w' e heq =>
      have he : e.tokens = [] := by
        simp only [WorkflowEngine.pyInit, ValidationResult.pyBool, if_true,
          Prod.mk.injEq, Except.ok.injEq] at heq
        obtain ⟨-, he⟩ := heq
        rw [← he]
      intro p hp
      rw [he] at hp
      cases hp
  | seed hr start initial_data hs ih =>
      exact (NoWaiting.set ih (by rw [status_init]; decide)).of_tokens_eq rfl
  | step hr tid ih => exact noWaiting_processToken ih
  | resume hr tid output ih => exact noWaiting_resume_token ih
  | mark hr st ih => exact ih.of_tokens_eq rfl

theorem evaluate_rule_loop_eq_zip (ctx : Dict Value) :
    ∀ (entries : List String) (cols : List TableColumn),
      evaluate_rule_loop ctx entries cols =
        (entries.zip cols).all
          (fun p => pyStr ((dictGet ctx p.2.name).getD Value.none) == p.1) := by
  intro entries
  induction entries with
  | nil => intro cols; simp [evaluate_rule_loop]
  | cons entry rest ih =>
      intro cols
      cases cols with
      | nil => simp [evaluate_rule_loop]
      | cons col cols =>
          cases hb : pyStr ((dictGet ctx col.name).getD Value.none) == entry with
          | true => simp [evaluate_rule_loop, hb, ih]
          | false => simp [evaluate_rule_loop, hb]

theorem evaluate_rule_eq_spec (rule : DecisionRule) (table : DecisionTable)
    (ctx : Dict Value) :
    evaluate_rule rule table ctx = ruleMatchesSpec rule table ctx := by
  rw [evaluate_rule, ruleMatchesSpec, evaluate_rule_loop_eq_zip]

theorem evaluate_rules_loop_eq_find (table : DecisionTable) (ctx : Dict Value) :
    ∀ (rules : List DecisionRule),
      evaluate_rules_loop table ctx rules =
        (rules.find? (fun rule => ruleMatchesSpec rule table ctx)).map
          DecisionRule.output_edge_id := by
  intro rules
  induction rules with
  | nil => simp [evaluate_rules_loop]
  | cons rule rest ih =>
      cases hm : ruleMatchesSpec rule table ctx with
      | true =>
          rw [evaluate_rules_loop, if_pos (by rw [evaluate_rule_eq_spec, hm])]
          simp [List.find?, hm]
      | false =>
          rw [evaluate_rules_loop,
            if_neg (by rw [evaluate_rule_eq_spec, hm]; exact Bool.false_ne_true)]
          simp [List.find?, hm, ih]

theorem dictGet_dictSet_isSome {α : Type} (d : Dict α) (k k' : String) (v : α)
    (h : (dictGet d k).isSome = true) : (dictGet (dictSet d k' v) k).isSome = true := by
  by_cases hk : k' = k
  · subst hk
    rw [dictGet_dictSet_self]
    rfl
  · rw [dictGet_dictSet_ne _ _ hk]
    exact h

theorem contextManager_foldl_all_nil :
    ∀ (contexts : List Context) (cm : ContextManager),
      (∀ p ∈ cm.data, p.2 = ([] : Dict Value)) →
      ∀ p ∈ (contexts.foldl
        (fun cm ctx =>
          { cm with contexts := dictSet cm.contexts ctx.id ctx,
                    data := dictSet cm.data ctx.id [] }) cm).data, p.2 = ([] : Dict Value) := by
  intro contexts
  induction contexts with
  | nil => intro cm h; simpa using h
  | cons c rest ih =>
      intro cm h
      rw [List.foldl_cons]
      apply ih
      intro p hp
      rcases mem_dictSet hp with hp | hp
      · exact h p hp
      · rw [hp]

theorem contextManager_foldl_isSome :
    ∀ (contexts : List Context) (cm : ContextManager) (k : String),
      (dictGet cm.data k).isSome = true →
      (dictGet ((contexts.foldl
        (fun cm ctx =>
          { cm with contexts := dictSet cm.contexts ctx.id ctx,
                    data := dictSet cm.data ctx.id [] }) cm)).data k).isSome = true := by
  intro contexts
  induction contexts with
  | nil => intro cm k h; simpa using h
  | cons c rest ih =>
      intro cm k h
      rw [List.foldl_cons]
      exact ih _ k (dictGet_dictSet_isSome _ _ _ _ h)

theorem contextManager_foldl_mem_isSome :
    ∀ (contexts : List Context) (cm : ContextManager) (ctx : Context),
      ctx ∈ contexts →
      (dictGet ((contexts.foldl
        (fun cm ctx =>
          { cm with contexts := dictSet cm.contexts ctx.id ctx,
                    data := dictSet cm.data ctx.id [] }) cm)).data ctx.id).isSome = true := by
  intro contexts
  induction contexts with
  | nil => intro cm ctx h; cases h
  | cons c rest ih =>
      intro cm ctx h
      rw [List.foldl_cons]
      rcases List.mem_cons.mp h with h | h
      · subst h
        apply contextManager_foldl_isSome
        rw [dictGet_dictSet_self]
        rfl
      · exact ih _ ctx h

theorem contextManager_init_mem_isSome (contexts : List Context) (ctx : Context)
    (hmem : ctx ∈ contexts) :
    (dictGet (ContextManager.init contexts).data ctx.id).isSome = true := by
  rw [ContextManager.init]
  exact contextManager_foldl_mem_isSome contexts _ ctx hmem

/-- Initial process state: clock 0, uuid counter 0, empty human task queue. -/
def w0 : World := { clock := 0, uuid_counter := 0, task_queue := [] }

/-- Is an `__init__` outcome a successfully constructed engine? -/
def initOk : Except PyErr Engine → Bool
  | Except.ok _ => true
  | Except.error _ => false

/-- A trivially empty workflow (used only as the default of `engineOr`). -/
def emptyWorkflow : Workflow :=
  { id := "", name := "", version := "", activities := [], edges := [] }

/-- Placeholder engine for the impossible error branch of `engineOr`. -/
def dummyEngine : Engine :=
  { workflow := emptyWorkflow, gemini_api_key := Option.none,
    context_manager := ContextManager.init [], tokens := [],
    status := EngineStatus.IDLE, activities_by_id := [],
    decision_nodes_by_id := [], actors := fun _ => Option.none,
    start_activity := Option.none }

/-- Extract the engine from a construction outcome. -/
def engineOr : Except PyErr Engine → Engine
  | Except.ok e => e
  | Except.error _ => dummyEngine

/-- A workflow that FAILS integrity validation: its only edge points at the
undeclared node `"ghost"`. -/
def c1BadWorkflow : Workflow :=
  { id := "wf1", name := "Bad", version := "1.0.0",
    activities := [{ id := "a1", name := "A", role_id := "r1",
                     actor_type := ActorType.application }],
    edges := [{ id := "e1", source_id := "a1", target_id := "ghost" }] }

/-- C1.  The claim says constructing a `WorkflowEngine` with a workflow that
fails integrity validation raises a configuration error and no run is
attempted.  The code disagrees: `validate_workflow_integrity` returns a
`ValidationResult` dataclass, and `WorkflowEngine.__init__` tests it with
`if not validate_workflow_integrity(workflow)` — a dataclass instance is
always truthy, so the rejection branch is dead and construction succeeds for
EVERY workflow, including `c1BadWorkflow`, whose validation result is
invalid with a dangling-edge error.  (The half of the claim asserting that
construction succeeds for valid workflows does hold, subsumed by the final
conjunct.) -/
theorem c1_invalid_workflow_construction_succeeds :
    (validate_workflow_integrity c1BadWorkflow).valid = false ∧
    (validate_workflow_integrity c1BadWorkflow).errors ≠ [] ∧
    initOk (WorkflowEngine.pyInit c1BadWorkflow Option.none w0).2 = true ∧
    (∀ (workflow : Workflow) (api_key : Option String) (w : World),
      initOk (WorkflowEngine.pyInit workflow api_key w).2 = true) := by
  refine ⟨by decide, by decide, by decide, ?_⟩
  intro workflow api_key w
  rw [WorkflowEngine.pyInit]
  rfl

/-- The linear two-activity workflow of the repository's own engine test
(`tests/test_workflow_engine.py::test_engine_run_simple_workflow`):
activities `a1 → a2` chained by one edge, no decision nodes. -/
def c2Workflow : Workflow :=
  { id := "wf2", name := "Test Workflow", version := "1.0.0",
    activities := [{ id := "a1", name := "Start Task", role_id := "r1",
                     actor_type := ActorType.application },
                   { id := "a2", name := "End Task", role_id := "r1",
                     actor_type := ActorType.application }],
    edges := [{ id := "e1", source_id := "a1", target_id := "a2" }] }

/-- The engine constructed over `c2Workflow`. -/
def c2Engine : Engine :=
  engineOr (WorkflowEngine.pyInit c2Workflow Option.none w0).2

/-- The outcome of `run()` over `c2Workflow`. -/
def c2Out : (World × Engine) × RunOutcome :=
  WorkflowEngine.run w0 c2Engine Option.none 10

/-- C2.  The claim says a run over `N ≥ 1` linearly chained activities
returns one `COMPLETED` token with `2N + 1` history entries.  The code
disagrees on every such workflow: the first activity step calls
`token.move(next, analytics=analytics)` (and, in its `except` handler,
`token.update_status(FAILED, analytics=analytics)`), but `token.py` defines
`move(self, next_activity_id)` and `update_status(self, status)` with no
`analytics` parameter, so `run()` raises `TypeError`.  At the failing input
`c2Workflow` (`N = 2`, the repository's own passing-asserted test workflow)
the run raises, the engine ends `FAILED`, and the sole token is left
`ACTIVE` with only its initial `"created"` history entry — not `COMPLETED`
with `5` entries. -/
theorem c2_linear_run_raises_typeerror :
    c2Out.2 = RunOutcome.raised analyticsKwargTypeError ∧
    c2Out.1.2.status = EngineStatus.FAILED ∧
    c2Out.1.2.tokens.map (fun p => p.2.status) = [TokenStatus.ACTIVE] ∧
    c2Out.1.2.tokens.map (fun p => p.2.history.length) = [1] := by
  refine ⟨by decide, by decide, by decide, by decide⟩

/-- Single-activity workflow whose actor will raise (claim C3). -/
def c3Workflow : Workflow :=
  { id := "wf3", name := "Failing", version := "1.0.0",
    activities := [{ id := "a1", name := "Task", role_id := "r1",
                     actor_type := ActorType.ai_agent }],
    edges := [] }

/-- An actor whose `execute` raises — the actor contract treats
implementations as swappable strategies (the built-in stubs never raise, but
e.g. a real model-backed AI actor's call can fail). -/
def raisingActor : ActorImpl := fun _activity _token w =>
  (w, Except.error (PyErr.valueError "actor execution failed"))

/-- A token sitting `ACTIVE` on the activity node `a1`. -/
def c3Token : Token :=
  { id := "t1", activity_id := "a1", status := TokenStatus.ACTIVE,
    context_data := [], history := [{ node_id := "a1", timestamp := 0,
                                      action := "created", metrics := Option.none }],
    parent_token_id := Option.none, workflow_id := Option.some "wf3",
    created_at := 0, updated_at := 0 }

/-- Engine mid-run over `c3Workflow` with `raisingActor` installed for every
actor kind. -/
def c3Engine : Engine :=
  { workflow := c3Workflow, gemini_api_key := Option.none,
    context_manager := ContextManager.init [],
    tokens := [("t1", c3Token)], status := EngineStatus.RUNNING,
    activities_by_id := [("a1", { id := "a1", name := "Task", role_id := "r1",
                                  actor_type := ActorType.ai_agent })],
    decision_nodes_by_id := [],
    actors := fun _ => Option.some raisingActor,
    start_activity := Option.some { id := "a1", name := "Task", role_id := "r1",
                                    actor_type := ActorType.ai_agent } }

/-- One step over the token whose actor raises. -/
def c3Step : (World × Engine) × Option PyErr := processToken w0 c3Engine "t1"

/-- The run loop over the same state. -/
def c3Run : (World × Engine) × RunOutcome := runLoop 5 w0 c3Engine

/-- C3.  The claim says an actor exception is contained to the token: the
token transitions to `FAILED` with "defects" analytics and a 1.0 error rate,
and the run loop continues and still returns a result.  The code disagrees:
the `except` handler at `workflow_engine.py` lines 209-217 builds those
analytics but then calls `token.update_status(FAILED, analytics=analytics)`,
whose `analytics` keyword `token.py` does not accept, so the handler itself
raises `TypeError`.  At the failing input (`c3Engine` stepping token `t1`
whose actor raises) the step propagates the `TypeError`, the token is left
`ACTIVE` (never `FAILED`) with no new history or analytics, and the run
raises instead of returning a result, ending `FAILED`. -/
theorem c3_actor_failure_not_contained :
    c3Step.2 = Option.some analyticsKwargTypeError ∧
    (dictGet c3Step.1.2.tokens "t1").map Token.status =
      Option.some TokenStatus.ACTIVE ∧
    (dictGet c3Step.1.2.tokens "t1").map (fun t => t.history.length) =
      Option.some 1 ∧
    c3Run.2 = RunOutcome.raised analyticsKwargTypeError ∧
    c3Run.1.2.status = EngineStatus.FAILED := by
  refine ⟨by decide, by decide, by decide, by decide, by decide⟩

/-- A token parked in `WAITING` status (Python token statuses are plain
mutable attributes; a caller or test can hold such a token). -/
def c4WaitingToken : Token :=
  { id := "t1", activity_id := "a1", status := TokenStatus.WAITING,
    context_data := [], history := [{ node_id := "a1", timestamp := 0,
                                      action := "created", metrics := Option.none }],
    parent_token_id := Option.none, workflow_id := Option.some "wf4",
    created_at := 0, updated_at := 0 }

/-- A second token that is `ACTIVE` (not resumable). -/
def c4ActiveToken : Token :=
  { id := "t2", activity_id := "a1", status := TokenStatus.ACTIVE,
    context_data := [], history := [{ node_id := "a1", timestamp := 0,
                                      action := "created", metrics := Option.none }],
    parent_token_id := Option.none, workflow_id := Option.some "wf4",
    created_at := 0, updated_at := 0 }

/-- Engine holding one `WAITING` and one `ACTIVE` token. -/
def c4Engine : Engine :=
  { workflow := emptyWorkflow, gemini_api_key := Option.none,
    context_manager := ContextManager.init [],
    tokens := [("t1", c4WaitingToken), ("t2", c4ActiveToken)],
    status := EngineStatus.RUNNING, activities_by_id := [],
    decision_nodes_by_id := [], actors := fun _ => Option.none,
    start_activity := Option.none }

/-- `resume_token` on an unknown token id. -/
def c4Unknown : (World × Engine) × Except PyErr Bool :=
  WorkflowEngine.resume_token w0 c4Engine "missing" [("answer", Value.int 42)]

/-- `resume_token` on a known but non-`WAITING` token. -/
def c4NotWaiting : (World × Engine) × Except PyErr Bool :=
  WorkflowEngine.resume_token w0 c4Engine "t2" [("answer", Value.int 42)]

/-- `resume_token` on the `WAITING` token. -/
def c4Waiting : (World × Engine) × Except PyErr Bool :=
  WorkflowEngine.resume_token w0 c4Engine "t1" [("answer", Value.int 42)]

/-- C4.  The claim's false branch holds: on an unknown or non-`WAITING`
token, `resume_token` returns `False` with no mutation.  The success branch
does not: on the `WAITING` token the source merges `output` into the token's
data but then calls `token.update_status(TokenStatus.ACTIVE,
analytics=analytics)` — `token.py` accepts no `analytics` keyword — so
`resume_token` raises `TypeError` instead of returning `True`, leaving the
token still `WAITING` with the merge already applied.  The claim's "in every
case it returns a boolean and never raises" is therefore false at this
input. -/
theorem c4_resume_token_raises_on_waiting :
    c4Unknown.2 = Except.ok false ∧
    c4Unknown.1.2.tokens = c4Engine.tokens ∧
    c4Unknown.1.1 = w0 ∧
    c4NotWaiting.2 = Except.ok false ∧
    c4NotWaiting.1.2.tokens = c4Engine.tokens ∧
    c4NotWaiting.1.1 = w0 ∧
    c4Waiting.2 = Except.error analyticsKwargTypeError ∧
    (dictGet c4Waiting.1.2.tokens "t1").map Token.status =
      Option.some TokenStatus.WAITING ∧
    (dictGet c4Waiting.1.2.tokens "t1").map Token.context_data =
      Option.some [("answer", Value.int 42)] := by
  refine ⟨by rfl, by decide, by decide, by rfl, by decide, by decide,
    by rfl, by decide, by decide⟩

/-- Does a `HumanTask` record the string `s` anywhere — as its own id, its
linked activity or workflow identity, its assignee, or a key or string value
of its data payload? -/
def HumanTask.mentions (task : HumanTask) (s : String) : Bool :=
  task.id == s || task.activity_id == s || task.workflow_id == s ||
    (match task.assignee_id with
     | Option.some a => a == s
     | Option.none => false) ||
    task.data.any (fun p => p.1 == s || decide (p.2 = Value.str s))

/-- Human-actor activity for claim C5. -/
def c5Activity : Activity :=
  { id := "act-1", name := "Review", role_id := "r1",
    actor_type := ActorType.human }

/-- Token for claim C5, with identity `"tok-1"` that appears nowhere in its
own data. -/
def c5Token : Token :=
  { id := "tok-1", activity_id := "act-1", status := TokenStatus.ACTIVE,
    context_data := [], history := [{ node_id := "act-1", timestamp := 0,
                                      action := "created", metrics := Option.none }],
    parent_token_id := Option.none, workflow_id := Option.some "wf-1",
    created_at := 0, updated_at := 0 }

/-- C5, counterexample.  The claim says the enqueued `HumanTask` records the
linked activity, workflow, AND token identities.  At this concrete input the
human actor enqueues exactly one task — carrying the activity id `"act-1"`
and workflow id `"wf-1"` — and the token identity `"tok-1"` appears nowhere
in it: `HumanTask.__init__` receives no token identity and the class stores
none. -/
theorem c5_human_task_omits_token_identity :
    (HumanAgent.execute c5Activity c5Token w0).1.task_queue =
      [("uuid-0", { id := "uuid-0", activity_id := "act-1",
                    workflow_id := "wf-1", status := "pending",
                    assignee_id := Option.none, data := [], created_at := 0 })] ∧
    ((HumanAgent.execute c5Activity c5Token w0).1.task_queue.all
      (fun p => ! HumanTask.mentions p.2 c5Token.id)) = true := by
  refine ⟨by decide, by decide⟩

/-- C5, amended.  Whenever the engine executes an activity whose actor kind
is human, the human actor enqueues onto the process-wide task queue one
pending `HumanTask` recording the linked activity and workflow identities
and a snapshot of the token's context data — but NOT the token identity —
and returns immediately (a plain synchronous return, no blocking) a result
map containing the new human-task identity. -/
theorem c5_human_actor_enqueues_task :
    ∀ (activity : Activity) (token : Token) (w : World),
      ∃ task : HumanTask,
        (HumanAgent.execute activity token w).1.task_queue =
          dictSet w.task_queue task.id task ∧
        (HumanAgent.execute activity token w).1.clock = w.clock + 1 ∧
        task.activity_id = activity.id ∧
        task.workflow_id = token.workflow_id.getD "" ∧
        task.data = token.context_data ∧
        task.status = "pending" ∧
        (HumanAgent.execute activity token w).2 =
          Except.ok [("_actor", Value.str "human_agent"),
                     ("_activity", Value.str activity.name),
                     ("_human_task_id", Value.str task.id),
                     ("_completed", Value.bool true)] := by
  intro activity token w
  refine ⟨(HumanTask.init activity.id (token.workflow_id.getD "")
      token.context_data Option.none w).1, ?_, ?_, ?_, ?_, ?_, ?_, ?_⟩ <;>
    simp [HumanAgent.execute, HumanTask.init, taskQueueAdd, uuid4, now]

/-- C6.  With the four built-in actors the engine registers, no reachable
engine state holds a token in `WAITING` status.  First conjunct: every
built-in actor's `execute` returns (never raises) a result map in which the
`_requires_human_action` key — the only key the step loop's `WAITING` branch
tests (`workflow_engine.py` line 197) — is absent.  Second conjunct: over
every state reachable through construction, `run`'s token creation, step
iterations, `resume_token`, and engine-status writes, no token is
`WAITING`. -/
theorem c6_no_waiting_token_reachable :
    (∀ (api_key : Option String) (ty : ActorType) (activity : Activity)
        (token : Token) (w : World),
      ∃ actor : ActorImpl, builtinActors api_key ty = Option.some actor ∧
        ∃ (w' : World) (result : Dict Value),
          actor activity token w = (w', Except.ok result) ∧
          dictGet result "_requires_human_action" = Option.none) ∧
    (∀ (w : World) (e : Engine), Reachable w e →
      ∀ p ∈ e.tokens, p.2.status ≠ TokenStatus.WAITING) := by
  constructor
  · intro api_key ty activity token w
    cases ty with
    | application => exact ⟨SoftwareAgent.execute, rfl, _, _, rfl, rfl⟩
    | ai_agent =>
        cases api_key with
        | none => exact ⟨AIAgent.execute Option.none, rfl, _, _, rfl, rfl⟩
        | some k => exact ⟨AIAgent.execute (Option.some k), rfl, _, _, rfl, rfl⟩
    | human => exact ⟨HumanAgent.execute, rfl, _, _, rfl, rfl⟩
    | robot => exact ⟨RobotAgent.execute, rfl, _, _, rfl, rfl⟩
  · intro w e hr
    exact reachable_noWaiting hr

/-- Empty workflow used to exhibit a concrete reachable engine state. -/
def c6BootWorkflow : Workflow :=
  { id := "wfb", name := "Boot", version := "1.0.0", activities := [], edges := [] }

/-- The engine `__init__` constructs over `c6BootWorkflow`. -/
def c6BootEngine : Engine :=
  engineOr (WorkflowEngine.pyInit c6BootWorkflow Option.none w0).2

/-- Witness for C6: the freshly constructed engine is a concrete reachable
state, and no token of it is `WAITING`. -/
theorem c6_no_waiting_token_reachable_witness : NoWaiting c6BootEngine :=
  c6_no_waiting_token_reachable.2 w0 c6BootEngine
    (Reachable.boot c6BootWorkflow Option.none w0 w0 c6BootEngine (by rfl))

/-- C7.  `DecisionEvaluator.evaluate` scans the decision table's rules in
declaration order and returns the output edge identity of the first rule all
of whose positional input entries (entries beyond the declared input columns
ignored) string-match the context value of the corresponding input column's
name; if no rule matches it returns the node's declared default edge
identity, or nothing when none is declared — i.e. the source evaluator
coincides with the spec-worded `evaluateSpec`. -/
theorem c7_evaluate_first_match_then_default :
    ∀ (node : DecisionNode) (context_data : Dict Value),
      DecisionEvaluator.evaluate node context_data = evaluateSpec node context_data := by
  intro node context_data
  rw [DecisionEvaluator.evaluate, evaluateSpec, evaluate_rules_loop_eq_find]
  cases node.decision_table.rules.find?
      (fun rule => ruleMatchesSpec rule node.decision_table context_data) with
  | none => rfl
  | some rule => rfl

/-- A declared context for claim C8. -/
def c8Context : Context :=
  { id := "c1", name := "Shared", initial_value := Option.none }

/-- Manager owning the single declared context `c1`. -/
def c8Manager : ContextManager := ContextManager.init [c8Context]

/-- C8.  The claim says `check_access` is a pure boolean grant check.  The
code disagrees for every KNOWN context: `check_access` dereferences
`context.access_rights`, but the `Context` pydantic model declares no such
field, so the call raises `AttributeError` instead of returning a boolean
(and the grant-compatibility logic in its loop is dead code — it would
itself raise on the undeclared `AccessMode.READ` member).  Only the
unknown-context branch behaves as claimed, returning `False`. -/
theorem c8_check_access_raises_on_known_context :
    ContextManager.check_access c8Manager "c1" "r1" AccessMode.read =
      Except.error (PyErr.attributeError "Context object has no attribute access_rights") ∧
    ContextManager.check_access c8Manager "c1" "r1" AccessMode.write =
      Except.error (PyErr.attributeError "Context object has no attribute access_rights") ∧
    ContextManager.check_access c8Manager "c1" "r1" AccessMode.read_write =
      Except.error (PyErr.attributeError "Context object has no attribute access_rights") ∧
    ContextManager.check_access c8Manager "unknown" "r1" AccessMode.read =
      Except.ok false := by
  refine ⟨by rfl, by rfl, by rfl, by rfl⟩

/-- C9.  Token history discipline, from `token.py` alone.  (1) Starting from
`Token.__init__` and applying ANY sequence of the token's mutating
operations, the history is non-empty, its first entry's action is
`"created"`, and its timestamps strictly increase.  (2) Every single
operation only ever APPENDS to the history — the old history is a prefix of
the new one, so its length never decreases and no entry is rewritten.
(3) `move` appends exactly two entries: `(previous node, "exited")` followed
by `(next node, "entered")`. -/
theorem c9_token_history_append_only :
    (∀ (activity_id : String) (initial_data : Option (Dict Value))
        (parent_token_id workflow_id : Option String) (w : World)
        (ops : List TokenOp),
      (applyTokenOps (Token.init activity_id initial_data parent_token_id
          workflow_id w) ops).1.history ≠ [] ∧
      ((applyTokenOps (Token.init activity_id initial_data parent_token_id
          workflow_id w) ops).1.history.head?.map HistoryEntry.action =
        Option.some "created") ∧
      List.Chain' (fun a b => a.timestamp < b.timestamp)
        (applyTokenOps (Token.init activity_id initial_data parent_token_id
          workflow_id w) ops).1.history) ∧
    (∀ (s : Token × World) (op : TokenOp),
      ∃ l, (applyTokenOp s op).1.history = s.1.history ++ l) ∧
    (∀ (t : Token) (next : String) (w : World),
      (Token.move t next w).1.history = t.history ++
        [{ node_id := t.activity_id, timestamp := w.clock, action := "exited",
           metrics := Option.none },
         { node_id := next, timestamp := w.clock + 1 + 1, action := "entered",
           metrics := Option.none }]) := by
  refine ⟨?_, applyTokenOp_history_append, ?_⟩
  · intro activity_id initial_data parent_token_id workflow_id w ops
    have h := histInv_applyTokenOps ops
      (histInv_init activity_id initial_data parent_token_id workflow_id w)
    exact ⟨h.1, h.2.1, h.2.2.1⟩
  · intro t next w
    simp [Token.move, Token.add_to_history, now]

/-- C10.  At `ContextManager` construction every declared context's data map
is initialised empty — regardless of any `initial_value` on the `Context`
definition — and `read` returns (a copy of, by the model's value semantics)
the stored map: the full stored map when the id is known, and the empty map,
without raising, when it is unknown.  `read` takes no lock on and returns no
modified manager, so it has no side effect on the stored data. -/
theorem c10_contexts_init_empty_read_copies :
    (∀ (contexts : List Context) (ctx : Context), ctx ∈ contexts →
      dictGet (ContextManager.init contexts).data ctx.id =
        Option.some ([] : Dict Value)) ∧
    (∀ (cm : ContextManager) (context_id : String),
      dictGet cm.data context_id = Option.none →
      ContextManager.read cm context_id = []) ∧
    (∀ (cm : ContextManager) (context_id : String) (d : Dict Value),
      dictGet cm.data context_id = Option.some d →
      ContextManager.read cm context_id = d) := by
  refine ⟨?_, ?_, ?_⟩
  · intro contexts ctx hmem
    have hsome := contextManager_init_mem_isSome contexts ctx hmem
    obtain ⟨v, hv⟩ := Option.isSome_iff_exists.mp hsome
    have hnil : v = ([] : Dict Value) := by
      have hmem2 := dictGet_mem hv
      have hall : ∀ p ∈ (ContextManager.init contexts).data, p.2 = ([] : Dict Value) := by
        rw [ContextManager.init]
        exact contextManager_foldl_all_nil contexts _ (by intro p hp; cases hp)
      exact hall _ hmem2
    rw [hv, hnil]
  · intro cm context_id h
    rw [ContextManager.read, h]
    rfl
  · intro cm context_id d h
    rw [ContextManager.read, h]
    rfl

/-- A context declaring a (never-seeded) initial value, for the C10
witness. -/
def c10Context : Context :=
  { id := "c1", name := "Doc", initial_value := Option.some (Value.int 7) }

/-- Witness for C10: for the concrete context list `[c10Context]` — whose
single context declares `initial_value = 7` — the stored data map is
nevertheless empty, and reading an unknown id yields the empty map. -/
theorem c10_contexts_init_empty_read_copies_witness :
    dictGet (ContextManager.init [c10Context]).data "c1" =
      Option.some ([] : Dict Value) ∧
    ContextManager.read (ContextManager.init [c10Context]) "absent" = [] :=
  ⟨c10_contexts_init_empty_read_copies.1 [c10Context] c10Context
      (List.mem_singleton.mpr rfl),
   c10_contexts_init_empty_read_copies.2.1 (ContextManager.init [c10Context])
      "absent" (by decide)⟩
